import Mathlib

/-!
Verification of `calculate_and_plot_free_energy` from
`calculate_plot_chemical_potential.py`.

The function consumes two 4-tuples of floats
`[mean_energy, mean_energy_err, fluctuation_term, fluctuation_term_err]`
(one per thermodynamic end-state), builds two linear models, intersects
them, and returns a free-energy integral together with a propagated
uncertainty.

Two embeddings are developed:
* an exact-real model (`calculate_and_plot_free_energy`) for the finite-input
  claims, in which Python's `ZeroDivisionError` on `x / 0.0` is modelled by
  an `Except` error; and
* an extended-float model (`calcFloat`, further below) with explicit
  `inf` / `neginf` / `nan` values and Python's raising division, for the
  claims about non-finite inputs.
-/

set_option maxHeartbeats 1000000

open scoped Classical

noncomputable section

/-- Exceptions the Python arithmetic in this function can raise:
`ZeroDivisionError` from `x / 0.0` (line 100) and `ValueError` from
`math.sqrt` of a negative number. -/
inductive PyError where
  | zeroDivisionError : PyError
  | valueError : PyError

/-- One end-state's 4-tuple `[mean_energy, mean_energy_err,
fluctuation_term, fluctuation_term_err]` (source lines 85-86 unpack these as
`e0_avg, e0_err, e0_fluc, e0_fluc_err` and `e1_avg, e1_err, e1_fluc,
e1_fluc_err`). -/
structure Sample where
  e_avg : ℝ
  e_err : ℝ
  e_fluc : ℝ
  e_fluc_err : ℝ

/-- Source line 89: `y0_intercept = e0_avg`. -/
def y0_intercept (l0 : Sample) : ℝ := l0.e_avg

/-- Source line 90: `y0_intercept_err = e0_err`. -/
def y0_intercept_err (l0 : Sample) : ℝ := l0.e_err

/-- Source line 91: `y1_intercept = e1_avg - 2 * e1_fluc`. -/
def y1_intercept (l1 : Sample) : ℝ := l1.e_avg - 2 * l1.e_fluc

/-- Source line 92: `y1_intercept_err = math.sqrt(e1_err**2 + 4 * e1_fluc_err**2)`. -/
def y1_intercept_err (l1 : Sample) : ℝ :=
  Real.sqrt (l1.e_err ^ 2 + 4 * l1.e_fluc_err ^ 2)

/-- Source line 94: `y0_slope = 2 * e0_fluc`. -/
def y0_slope (l0 : Sample) : ℝ := 2 * l0.e_fluc

/-- Source line 95: `y0_slope_err = 2 * e0_fluc_err`. -/
def y0_slope_err (l0 : Sample) : ℝ := 2 * l0.e_fluc_err

/-- Source line 96: `y1_slope = 2 * e1_fluc`. -/
def y1_slope (l1 : Sample) : ℝ := 2 * l1.e_fluc

/-- Source line 97: `y1_slope_err = 2 * e1_fluc_err`. -/
def y1_slope_err (l1 : Sample) : ℝ := 2 * l1.e_fluc_err

/-- Source line 100:
`x_intersect = (y0_intercept - y1_intercept) / (y1_slope - y0_slope)`
(value of the division when it does not raise). -/
def x_intersect (l0 l1 : Sample) : ℝ :=
  (y0_intercept l0 - y1_intercept l1) / (y1_slope l1 - y0_slope l0)

/-- Source lines 109-112: the in-domain intersection uncertainty
`x_intersect_err = math.sqrt((y0_intercept_err**2 + y1_intercept_err**2) /
(y1_slope - y0_slope)**2 + (y0_intercept - y1_intercept)**2 /
(y1_slope - y0_slope)**2 * (y1_slope_err**2 + y0_slope_err**2))`. -/
def x_intersect_err (l0 l1 : Sample) : ℝ :=
  Real.sqrt
    ((y0_intercept_err l0 ^ 2 + y1_intercept_err l1 ^ 2) /
        (y1_slope l1 - y0_slope l0) ^ 2 +
      (y0_intercept l0 - y1_intercept l1) ^ 2 / (y1_slope l1 - y0_slope l0) ^ 2 *
        (y1_slope_err l1 ^ 2 + y0_slope_err l0 ^ 2))

/-- Source line 115: `integral_y0 = (y0_slope * x_intersect**2) / 2 + y0_intercept * x_intersect`. -/
def integral_y0 (l0 l1 : Sample) : ℝ :=
  y0_slope l0 * x_intersect l0 l1 ^ 2 / 2 + y0_intercept l0 * x_intersect l0 l1

/-- Source line 116: `integral_y1 = (y1_slope * (1 - x_intersect**2)) / 2 + y1_intercept * (1 - x_intersect)`. -/
def integral_y1 (l0 l1 : Sample) : ℝ :=
  y1_slope l1 * (1 - x_intersect l0 l1 ^ 2) / 2 +
    y1_intercept l1 * (1 - x_intersect l0 l1)

/-- Source lines 120-125: the in-domain integral uncertainty. -/
def integral_err_in_domain (l0 l1 : Sample) : ℝ :=
  Real.sqrt
    (l1.e_err ^ 2 + y1_slope_err l1 ^ 2 / 4 +
      x_intersect_err l0 l1 ^ 2 * (y0_intercept l0 - l1.e_avg + y1_slope l1) ^ 2 +
      x_intersect l0 l1 ^ 2 *
        (y0_intercept_err l0 ^ 2 + l1.e_err ^ 2 + y1_slope_err l1 ^ 2) +
      x_intersect l0 l1 ^ 2 * x_intersect_err l0 l1 ^ 2 *
        (y0_slope l0 - y1_slope l1) ^ 2 +
      x_intersect l0 l1 ^ 4 / 4 * (y0_slope_err l0 ^ 2 + y1_slope_err l1 ^ 2))

/-- Source line 103: the out-of-domain fallback `integral = (e0_avg + e1_avg) / 2`. -/
def integral_fallback (l0 l1 : Sample) : ℝ := (l0.e_avg + l1.e_avg) / 2

/-- Source line 104: the out-of-domain fallback
`integral_err = math.sqrt(e0_err**2 + e1_err**2) / 2`. -/
def integral_err_fallback (l0 l1 : Sample) : ℝ :=
  Real.sqrt (l0.e_err ^ 2 + l1.e_err ^ 2) / 2

/-- Source lines 102-127: the data-dependent branch.  Line 102 tests
`if not 0 <= x_intersect <= 1:` and takes the fallback pair; otherwise the
in-domain pair is produced. -/
def freeEnergyResult (l0 l1 : Sample) : ℝ × ℝ :=
  if ¬ (0 ≤ x_intersect l0 l1 ∧ x_intersect l0 l1 ≤ 1) then
    (integral_fallback l0 l1, integral_err_fallback l0 l1)
  else
    (integral_y0 l0 l1 + integral_y1 l0 l1, integral_err_in_domain l0 l1)

/-- The whole function on finite (real) inputs, source lines 84-129.  Python
raises `ZeroDivisionError` at line 100 exactly when the float denominator
`y1_slope - y0_slope` equals zero; otherwise the function returns the pair
`(integral, integral_err)` at line 129.  (The plotting code at lines 131-149
sits after the `return` statement; see the statement model further below.) -/
def calculate_and_plot_free_energy (l0 l1 : Sample) : Except PyError (ℝ × ℝ) :=
  if y1_slope l1 - y0_slope l0 = 0 then Except.error PyError.zeroDivisionError
  else Except.ok (freeEnergyResult l0 l1)

/-- A linear model `y = slope * x + intercept` with standard errors, the
spec's derived entity (spec section 3). -/
structure LinearModel where
  slope : ℝ
  slope_err : ℝ
  intercept : ℝ
  intercept_err : ℝ

/-- The Lambda=0 linear model the code builds (source lines 89-95). -/
def buildModel0 (l0 : Sample) : LinearModel :=
  ⟨y0_slope l0, y0_slope_err l0, y0_intercept l0, y0_intercept_err l0⟩

/-- The Lambda=1 linear model the code builds (source lines 91-97). -/
def buildModel1 (l1 : Sample) : LinearModel :=
  ⟨y1_slope l1, y1_slope_err l1, y1_intercept l1, y1_intercept_err l1⟩

/-- The Lambda=0 model as the spec words it (spec section 4.1): slope
`2 * fluctuation_term`, slope error `2 * fluctuation_term_err`, intercept
`mean_energy`, intercept error `mean_energy_err`. -/
def specModel0 (s : Sample) : LinearModel :=
  ⟨2 * s.e_fluc, 2 * s.e_fluc_err, s.e_avg, s.e_err⟩

/-- The Lambda=1 model as the spec words it (spec section 4.1): slope
`2 * fluctuation_term`, slope error `2 * fluctuation_term_err`, intercept
`mean_energy - 2 * fluctuation_term`, intercept error
`sqrt(mean_energy_err^2 + 4 * fluctuation_term_err^2)`. -/
def specModel1 (s : Sample) : LinearModel :=
  ⟨2 * s.e_fluc, 2 * s.e_fluc_err, s.e_avg - 2 * s.e_fluc,
    Real.sqrt (s.e_err ^ 2 + 4 * s.e_fluc_err ^ 2)⟩

/-- The intersection standard error that claim C3 states: first-order
(delta-method) propagation of `x = (intercept0 - intercept1) / (slope1 -
slope0)` with independent inputs, in which the slope-error term carries the
fourth power of the slope difference. -/
def xErrSpecDelta (l0 l1 : Sample) : ℝ :=
  Real.sqrt
    ((y0_intercept_err l0 ^ 2 + y1_intercept_err l1 ^ 2) /
        (y1_slope l1 - y0_slope l0) ^ 2 +
      (y0_intercept l0 - y1_intercept l1) ^ 2 *
        (y1_slope_err l1 ^ 2 + y0_slope_err l0 ^ 2) /
        (y1_slope l1 - y0_slope l0) ^ 4)

/-- The in-domain integral uncertainty that claim C4 states: the quadrature
sum of the symbolic partial derivatives of
`I = slope0*x^2/2 + intercept0*x + slope1*(1-x^2)/2 + intercept1*(1-x)`
with respect to each independent source `x, slope0, slope1, intercept0,
intercept1`, each weighted by its standard error. -/
def integralErrSpecDelta (l0 l1 : Sample) : ℝ :=
  Real.sqrt
    (x_intersect_err l0 l1 ^ 2 *
        (y0_slope l0 * x_intersect l0 l1 + y0_intercept l0 -
          y1_slope l1 * x_intersect l0 l1 - y1_intercept l1) ^ 2 +
      (x_intersect l0 l1 ^ 2 / 2) ^ 2 * y0_slope_err l0 ^ 2 +
      x_intersect l0 l1 ^ 2 * y0_intercept_err l0 ^ 2 +
      ((1 - x_intersect l0 l1 ^ 2) / 2) ^ 2 * y1_slope_err l1 ^ 2 +
      (1 - x_intersect l0 l1) ^ 2 * y1_intercept_err l1 ^ 2)

/-- A Python float: either a finite value (kept exact, so rounding and
overflow are idealized away), a signed infinity, or `nan`.  The sign of a
zero is not tracked: nothing in this function distinguishes `0.0` from
`-0.0` (comparisons and the `x / 0.0` raise treat them alike). -/
inductive EFloat where
  | finite : ℝ → EFloat
  | inf : EFloat
  | neginf : EFloat
  | nan : EFloat

/-- Whether a float is neither infinite nor `nan`. -/
def EFloat.isFinite : EFloat → Bool
  | EFloat.finite _ => true
  | _ => false

/-- IEEE negation. -/
def eneg : EFloat → EFloat
  | EFloat.finite a => EFloat.finite (-a)
  | EFloat.inf => EFloat.neginf
  | EFloat.neginf => EFloat.inf
  | EFloat.nan => EFloat.nan

/-- IEEE addition: `nan` absorbs, opposite infinities give `nan`. -/
def eadd : EFloat → EFloat → EFloat
  | EFloat.nan, _ => EFloat.nan
  | _, EFloat.nan => EFloat.nan
  | EFloat.inf, EFloat.neginf => EFloat.nan
  | EFloat.neginf, EFloat.inf => EFloat.nan
  | EFloat.inf, _ => EFloat.inf
  | _, EFloat.inf => EFloat.inf
  | EFloat.neginf, _ => EFloat.neginf
  | _, EFloat.neginf => EFloat.neginf
  | EFloat.finite a, EFloat.finite b => EFloat.finite (a + b)

/-- IEEE subtraction, `a - b = a + (-b)`. -/
def esub (a b : EFloat) : EFloat := eadd a (eneg b)

/-- IEEE multiplication: `nan` absorbs, `inf * 0` is `nan`. -/
def emul : EFloat → EFloat → EFloat
  | EFloat.nan, _ => EFloat.nan
  | _, EFloat.nan => EFloat.nan
  | EFloat.inf, EFloat.inf => EFloat.inf
  | EFloat.inf, EFloat.neginf => EFloat.neginf
  | EFloat.neginf, EFloat.inf => EFloat.neginf
  | EFloat.neginf, EFloat.neginf => EFloat.inf
  | EFloat.inf, EFloat.finite b =>
      if 0 < b then EFloat.inf else if b < 0 then EFloat.neginf else EFloat.nan
  | EFloat.finite a, EFloat.inf =>
      if 0 < a then EFloat.inf else if a < 0 then EFloat.neginf else EFloat.nan
  | EFloat.neginf, EFloat.finite b =>
      if 0 < b then EFloat.neginf else if b < 0 then EFloat.inf else EFloat.nan
  | EFloat.finite a, EFloat.neginf =>
      if 0 < a then EFloat.neginf else if a < 0 then EFloat.inf else EFloat.nan
  | EFloat.finite a, EFloat.finite b => EFloat.finite (a * b)

/-- Python's `x ** 2` on a float. -/
def epow2 (a : EFloat) : EFloat := emul a a

/-- Python's `x ** 4` on a float. -/
def epow4 (a : EFloat) : EFloat := emul (epow2 a) (epow2 a)

/-- The value of an IEEE division whose denominator is not a zero float
(Python raises before this value would be produced otherwise). -/
def edivSafe : EFloat → EFloat → EFloat
  | EFloat.nan, _ => EFloat.nan
  | _, EFloat.nan => EFloat.nan
  | EFloat.finite a, EFloat.finite d => EFloat.finite (a / d)
  | EFloat.finite _, EFloat.inf => EFloat.finite 0
  | EFloat.finite _, EFloat.neginf => EFloat.finite 0
  | EFloat.inf, EFloat.inf => EFloat.nan
  | EFloat.inf, EFloat.neginf => EFloat.nan
  | EFloat.neginf, EFloat.inf => EFloat.nan
  | EFloat.neginf, EFloat.neginf => EFloat.nan
  | EFloat.inf, EFloat.finite d => if 0 < d then EFloat.inf else EFloat.neginf
  | EFloat.neginf, EFloat.finite d => if 0 < d then EFloat.neginf else EFloat.inf

/-- Python float division: raises `ZeroDivisionError` whenever the
denominator compares equal to `0.0`, no matter the numerator. -/
def ediv (a b : EFloat) : Except PyError EFloat :=
  if b = EFloat.finite 0 then Except.error PyError.zeroDivisionError
  else Except.ok (edivSafe a b)

/-- Python `math.sqrt`: `ValueError` on negative arguments (including
`-inf`), `nan` for `nan`, `inf` for `inf`. -/
def esqrt : EFloat → Except PyError EFloat
  | EFloat.finite r =>
      if r < 0 then Except.error PyError.valueError
      else Except.ok (EFloat.finite (Real.sqrt r))
  | EFloat.inf => Except.ok EFloat.inf
  | EFloat.neginf => Except.error PyError.valueError
  | EFloat.nan => Except.ok EFloat.nan

/-- Python `<=` on floats: any comparison with `nan` is false. -/
def pyLe : EFloat → EFloat → Prop
  | EFloat.nan, _ => False
  | _, EFloat.nan => False
  | EFloat.neginf, _ => True
  | EFloat.finite _, EFloat.inf => True
  | EFloat.inf, EFloat.inf => True
  | EFloat.inf, _ => False
  | EFloat.finite a, EFloat.finite b => a ≤ b
  | EFloat.finite _, EFloat.neginf => False

/-- A float on which `math.sqrt` cannot raise: not `-inf`, and not a
negative finite value.  Squares, their positive multiples and their sums all
satisfy this. -/
def SqrtSafe (a : EFloat) : Prop :=
  a ≠ EFloat.neginf ∧ ∀ r : ℝ, a = EFloat.finite r → 0 ≤ r

/-- An end-state 4-tuple of Python floats. -/
structure ESample where
  e_avg : EFloat
  e_err : EFloat
  e_fluc : EFloat
  e_fluc_err : EFloat

/-- The function of source lines 84-129 on Python floats: the same
computation as `calculate_and_plot_free_energy`, with every division and
square root threaded through `Except` in the source's evaluation order
(line 92's square root runs before line 100's division). -/
def calcFloat (l0 l1 : ESample) : Except PyError (EFloat × EFloat) := do
  let y0_int := l0.e_avg
  let y0_int_err := l0.e_err
  let y1_int := esub l1.e_avg (emul (EFloat.finite 2) l1.e_fluc)
  let y1_int_err ← esqrt
    (eadd (epow2 l1.e_err) (emul (EFloat.finite 4) (epow2 l1.e_fluc_err)))
  let y0_s := emul (EFloat.finite 2) l0.e_fluc
  let y0_s_err := emul (EFloat.finite 2) l0.e_fluc_err
  let y1_s := emul (EFloat.finite 2) l1.e_fluc
  let y1_s_err := emul (EFloat.finite 2) l1.e_fluc_err
  let xi ← ediv (esub y0_int y1_int) (esub y1_s y0_s)
  if ¬ (pyLe (EFloat.finite 0) xi ∧ pyLe xi (EFloat.finite 1)) then
    let integral ← ediv (eadd l0.e_avg l1.e_avg) (EFloat.finite 2)
    let ierr_sqrt ← esqrt (eadd (epow2 l0.e_err) (epow2 l1.e_err))
    let integral_err ← ediv ierr_sqrt (EFloat.finite 2)
    pure (integral, integral_err)
  else
    let xe1 ← ediv (eadd (epow2 y0_int_err) (epow2 y1_int_err))
      (epow2 (esub y1_s y0_s))
    let xe2 ← ediv (epow2 (esub y0_int y1_int)) (epow2 (esub y1_s y0_s))
    let x_err ← esqrt
      (eadd xe1 (emul xe2 (eadd (epow2 y1_s_err) (epow2 y0_s_err))))
    let iy0a ← ediv (emul y0_s (epow2 xi)) (EFloat.finite 2)
    let integral_y0v := eadd iy0a (emul y0_int xi)
    let iy1a ← ediv (emul y1_s (esub (EFloat.finite 1) (epow2 xi)))
      (EFloat.finite 2)
    let integral_y1v := eadd iy1a (emul y1_int (esub (EFloat.finite 1) xi))
    let t2 ← ediv (epow2 y1_s_err) (EFloat.finite 4)
    let t3 := emul (epow2 x_err) (epow2 (eadd (esub y0_int l1.e_avg) y1_s))
    let t4 := emul (epow2 xi)
      (eadd (eadd (epow2 y0_int_err) (epow2 l1.e_err)) (epow2 y1_s_err))
    let t5 := emul (emul (epow2 xi) (epow2 x_err)) (epow2 (esub y0_s y1_s))
    let t6a ← ediv (epow4 xi) (EFloat.finite 4)
    let t6 := emul t6a (eadd (epow2 y0_s_err) (epow2 y1_s_err))
    let integral_err ← esqrt
      (eadd (eadd (eadd (eadd (eadd (epow2 l1.e_err) t2) t3) t4) t5) t6)
    pure (eadd integral_y0v integral_y1v, integral_err)

/-- One Python statement of the function body, abstracted to its effect:
a `print`, a matplotlib call, or the `return` of the result pair. -/
inductive PyStmt where
  | print : PyStmt
  | plotCommand : PyStmt
  | ret : ℝ × ℝ → PyStmt

/-- Sequential execution of a statement list: statements run in order and
a `return` stops execution.  The result is the list of statements that
actually executed before the return, and the returned value (if any). -/
def execStmts : List PyStmt → List PyStmt × Option (ℝ × ℝ)
  | [] => ([], none)
  | PyStmt.ret v :: _ => ([], some v)
  | s :: rest => (s :: (execStmts rest).1, (execStmts rest).2)

/-- The statement-level body of the function, on inputs where line 100 does
not raise: the eight summary prints of lines 75-82, the two branch prints of
lines 105-106 or 126-127, the `return` of line 129, and the thirteen
plotting statements of lines 132-149. -/
def functionBody (l0 l1 : Sample) : List PyStmt :=
  [PyStmt.print, PyStmt.print, PyStmt.print, PyStmt.print, PyStmt.print,
    PyStmt.print, PyStmt.print, PyStmt.print, PyStmt.print, PyStmt.print,
    PyStmt.ret (freeEnergyResult l0 l1),
    PyStmt.plotCommand, PyStmt.plotCommand, PyStmt.plotCommand,
    PyStmt.plotCommand, PyStmt.plotCommand, PyStmt.plotCommand,
    PyStmt.plotCommand, PyStmt.plotCommand, PyStmt.plotCommand,
    PyStmt.plotCommand, PyStmt.plotCommand, PyStmt.plotCommand,
    PyStmt.plotCommand]

end

/-- C7: the derived line parameters are pure functions of the corresponding
end-state's 4-tuple, and equal the spec's formulas: for Lambda=0 the slope is
`2*fluctuation_term`, slope error `2*fluctuation_term_err`, intercept
`mean_energy`, intercept error `mean_energy_err`; for Lambda=1 the slope is
`2*fluctuation_term`, slope error `2*fluctuation_term_err`, intercept
`mean_energy - 2*fluctuation_term`, intercept error
`sqrt(mean_energy_err^2 + 4*fluctuation_term_err^2)`. -/
theorem line_models_match_spec (s t : Sample) :
    buildModel0 s = specModel0 s ∧ buildModel1 t = specModel1 t :=
  ⟨rfl, rfl⟩

/-- C8: whenever the slopes differ, the computed intersection abscissa
satisfies `slope0 * x + intercept0 = slope1 * x + intercept1` exactly. -/
theorem x_intersect_on_both_lines (l0 l1 : Sample)
    (h : y1_slope l1 - y0_slope l0 ≠ 0) :
    y0_slope l0 * x_intersect l0 l1 + y0_intercept l0 =
      y1_slope l1 * x_intersect l0 l1 + y1_intercept l1 := by
  unfold x_intersect
  field_simp
  ring

/-- Witness for C8 at the concrete input `lambda0 = [1,0,0,0]`,
`lambda1 = [2,0,1,0]` (slopes 0 and 2, intersection at 1/2). -/
theorem x_intersect_on_both_lines_witness :
    y1_slope ⟨2, 0, 1, 0⟩ - y0_slope ⟨1, 0, 0, 0⟩ ≠ 0 ∧
      y0_slope ⟨1, 0, 0, 0⟩ * x_intersect ⟨1, 0, 0, 0⟩ ⟨2, 0, 1, 0⟩ +
          y0_intercept ⟨1, 0, 0, 0⟩ =
        y1_slope ⟨2, 0, 1, 0⟩ * x_intersect ⟨1, 0, 0, 0⟩ ⟨2, 0, 1, 0⟩ +
          y1_intercept ⟨2, 0, 1, 0⟩ :=
  ⟨by norm_num [y1_slope, y0_slope],
    x_intersect_on_both_lines _ _ (by norm_num [y1_slope, y0_slope])⟩

/-- C1: at the concrete equal-slope input `lambda0 = [1,0,1,0]`,
`lambda1 = [2,0,1,0]` the code divides by the zero float
`y1_slope - y0_slope` at line 100 and raises `ZeroDivisionError`, instead of
reporting no intersection and returning `(1+2)/2` as the claim requires. -/
theorem calc_raises_on_equal_slopes :
    calculate_and_plot_free_energy ⟨1, 0, 1, 0⟩ ⟨2, 0, 1, 0⟩ =
      Except.error PyError.zeroDivisionError := by
  have h : y1_slope ⟨2, 0, 1, 0⟩ - y0_slope ⟨1, 0, 1, 0⟩ = 0 := by
    norm_num [y1_slope, y0_slope]
  simp [calculate_and_plot_free_energy, h]

/-- C6: for any finite input with distinct slopes whose intersection lies
outside `[0,1]`, the function returns exactly
`((mean_energy0 + mean_energy1)/2, sqrt(mean_energy_err0^2 +
mean_energy_err1^2)/2)`; the returned expression mentions neither
fluctuation term nor fluctuation-term uncertainty. -/
theorem integral_fallback_value (l0 l1 : Sample)
    (hs : y1_slope l1 - y0_slope l0 ≠ 0)
    (hout : ¬ (0 ≤ x_intersect l0 l1 ∧ x_intersect l0 l1 ≤ 1)) :
    calculate_and_plot_free_energy l0 l1 =
      Except.ok
        ((l0.e_avg + l1.e_avg) / 2,
          Real.sqrt (l0.e_err ^ 2 + l1.e_err ^ 2) / 2) := by
  unfold calculate_and_plot_free_energy freeEnergyResult integral_fallback
    integral_err_fallback
  rw [if_neg hs, if_pos hout]

/-- Witness for C6 at `lambda0 = [10,3,0,0]`, `lambda1 = [0,4,1,0]`
(intersection at x = 6, outside the domain). -/
theorem integral_fallback_value_witness :
    (y1_slope ⟨0, 4, 1, 0⟩ - y0_slope ⟨10, 3, 0, 0⟩ ≠ 0) ∧
      ¬ (0 ≤ x_intersect ⟨10, 3, 0, 0⟩ ⟨0, 4, 1, 0⟩ ∧
          x_intersect ⟨10, 3, 0, 0⟩ ⟨0, 4, 1, 0⟩ ≤ 1) ∧
      calculate_and_plot_free_energy ⟨10, 3, 0, 0⟩ ⟨0, 4, 1, 0⟩ =
        Except.ok
          (((10 : ℝ) + 0) / 2, Real.sqrt ((3 : ℝ) ^ 2 + 4 ^ 2) / 2) := by
  refine ⟨by norm_num [y1_slope, y0_slope], ?_, ?_⟩
  · norm_num [x_intersect, y0_intercept, y1_intercept, y1_slope, y0_slope]
  · exact integral_fallback_value ⟨10, 3, 0, 0⟩ ⟨0, 4, 1, 0⟩
      (by norm_num [y1_slope, y0_slope])
      (by norm_num [x_intersect, y0_intercept, y1_intercept, y1_slope, y0_slope])

/-- The definite integral of a linear function over an interval, in closed
form. -/
theorem integral_linear (m c a b : ℝ) :
    (∫ t in a..b, (m * t + c)) = m * (b ^ 2 - a ^ 2) / 2 + c * (b - a) := by
  have h1 : IntervalIntegrable (fun t : ℝ => m * t) MeasureTheory.volume a b :=
    (continuous_const.mul continuous_id).intervalIntegrable a b
  have h2 : IntervalIntegrable (fun _ : ℝ => c) MeasureTheory.volume a b :=
    continuous_const.intervalIntegrable a b
  rw [intervalIntegral.integral_add h1 h2, intervalIntegral.integral_const,
    intervalIntegral.integral_const_mul, integral_id, smul_eq_mul]
  ring

/-- At the concrete input `lambda0 = [1,0,0,1/2]`, `lambda1 = [2,0,1,0]`
the intersection is at 1/2. -/
theorem x_intersect_sample : x_intersect ⟨1, 0, 0, 1/2⟩ ⟨2, 0, 1, 0⟩ = 1 / 2 := by
  norm_num [x_intersect, y0_intercept, y1_intercept, y1_slope, y0_slope]

/-- At the `lambda1 = [2,0,1,0]` end-state the back-projected intercept has
zero uncertainty. -/
theorem y1_intercept_err_sample : y1_intercept_err ⟨2, 0, 1, 0⟩ = 0 := by
  rw [y1_intercept_err]
  norm_num

/-- At the concrete input `lambda0 = [1,0,0,1/2]`, `lambda1 = [2,0,1,0]`
the code computes an intersection uncertainty of 1/2. -/
theorem x_intersect_err_sample :
    x_intersect_err ⟨1, 0, 0, 1/2⟩ ⟨2, 0, 1, 0⟩ = 1 / 2 := by
  have harg :
      (y0_intercept_err ⟨1, 0, 0, 1/2⟩ ^ 2 + y1_intercept_err ⟨2, 0, 1, 0⟩ ^ 2) /
          (y1_slope ⟨2, 0, 1, 0⟩ - y0_slope ⟨1, 0, 0, 1/2⟩) ^ 2 +
        (y0_intercept ⟨1, 0, 0, 1/2⟩ - y1_intercept ⟨2, 0, 1, 0⟩) ^ 2 /
            (y1_slope ⟨2, 0, 1, 0⟩ - y0_slope ⟨1, 0, 0, 1/2⟩) ^ 2 *
          (y1_slope_err ⟨2, 0, 1, 0⟩ ^ 2 + y0_slope_err ⟨1, 0, 0, 1/2⟩ ^ 2) =
        (1 / 2 : ℝ) ^ 2 := by
    rw [y1_intercept_err_sample]
    norm_num [y0_intercept_err, y0_intercept, y1_intercept, y1_slope, y0_slope,
      y1_slope_err, y0_slope_err]
  rw [x_intersect_err, harg, Real.sqrt_sq (by norm_num : (0:ℝ) ≤ 1 / 2)]

/-- C3 (amended): the computed intersection uncertainty is nonnegative and
its square is `(intercept0_err^2 + intercept1_err^2)/(slope1 - slope0)^2 +
(intercept0 - intercept1)^2/(slope1 - slope0)^2 * (slope1_err^2 +
slope0_err^2)` — the slope-error term is divided by the square of the slope
difference, not by its fourth power. -/
theorem x_intersect_err_closed_form (l0 l1 : Sample) :
    0 ≤ x_intersect_err l0 l1 ∧
      x_intersect_err l0 l1 ^ 2 =
        (y0_intercept_err l0 ^ 2 + y1_intercept_err l1 ^ 2) /
            (y1_slope l1 - y0_slope l0) ^ 2 +
          (y0_intercept l0 - y1_intercept l1) ^ 2 /
              (y1_slope l1 - y0_slope l0) ^ 2 *
            (y1_slope_err l1 ^ 2 + y0_slope_err l0 ^ 2) :=
  ⟨Real.sqrt_nonneg _, Real.sq_sqrt (by positivity)⟩

/-- C3 counterexample: at the in-domain input `lambda0 = [1,0,0,1/2]`,
`lambda1 = [2,0,1,0]` the code's intersection uncertainty is 1/2 while the
delta-method value stated by the claim is 1/4. -/
theorem x_intersect_err_ne_delta_method :
    (0 ≤ x_intersect ⟨1, 0, 0, 1/2⟩ ⟨2, 0, 1, 0⟩ ∧
        x_intersect ⟨1, 0, 0, 1/2⟩ ⟨2, 0, 1, 0⟩ ≤ 1) ∧
      x_intersect_err ⟨1, 0, 0, 1/2⟩ ⟨2, 0, 1, 0⟩ ≠
        xErrSpecDelta ⟨1, 0, 0, 1/2⟩ ⟨2, 0, 1, 0⟩ := by
  have hspec : xErrSpecDelta ⟨1, 0, 0, 1/2⟩ ⟨2, 0, 1, 0⟩ = 1 / 4 := by
    have harg :
        (y0_intercept_err ⟨1, 0, 0, 1/2⟩ ^ 2 + y1_intercept_err ⟨2, 0, 1, 0⟩ ^ 2) /
            (y1_slope ⟨2, 0, 1, 0⟩ - y0_slope ⟨1, 0, 0, 1/2⟩) ^ 2 +
          (y0_intercept ⟨1, 0, 0, 1/2⟩ - y1_intercept ⟨2, 0, 1, 0⟩) ^ 2 *
              (y1_slope_err ⟨2, 0, 1, 0⟩ ^ 2 + y0_slope_err ⟨1, 0, 0, 1/2⟩ ^ 2) /
            (y1_slope ⟨2, 0, 1, 0⟩ - y0_slope ⟨1, 0, 0, 1/2⟩) ^ 4 =
          (1 / 4 : ℝ) ^ 2 := by
      rw [y1_intercept_err_sample]
      norm_num [y0_intercept_err, y0_intercept, y1_intercept, y1_slope,
        y0_slope, y1_slope_err, y0_slope_err]
    rw [xErrSpecDelta, harg, Real.sqrt_sq (by norm_num : (0:ℝ) ≤ 1 / 4)]
  refine ⟨by rw [x_intersect_sample]; norm_num, ?_⟩
  rw [x_intersect_err_sample, hspec]
  norm_num

/-- C5: on every finite input with distinct slopes whose intersection lies
in `[0,1]`, the function returns the pair whose value is
`slope0*x^2/2 + intercept0*x + slope1*(1-x^2)/2 + intercept1*(1-x)`, and
that value is exactly the definite integral of the Lambda=0 line over
`[0,x]` plus the Lambda=1 line over `[x,1]`. -/
theorem integral_in_domain_value (l0 l1 : Sample)
    (hs : y1_slope l1 - y0_slope l0 ≠ 0)
    (hdom : 0 ≤ x_intersect l0 l1 ∧ x_intersect l0 l1 ≤ 1) :
    calculate_and_plot_free_energy l0 l1 =
        Except.ok
          (integral_y0 l0 l1 + integral_y1 l0 l1, integral_err_in_domain l0 l1) ∧
      integral_y0 l0 l1 + integral_y1 l0 l1 =
        y0_slope l0 * x_intersect l0 l1 ^ 2 / 2 +
            y0_intercept l0 * x_intersect l0 l1 +
          (y1_slope l1 * (1 - x_intersect l0 l1 ^ 2) / 2 +
            y1_intercept l1 * (1 - x_intersect l0 l1)) ∧
      integral_y0 l0 l1 + integral_y1 l0 l1 =
        (∫ t in (0:ℝ)..x_intersect l0 l1, (y0_slope l0 * t + y0_intercept l0)) +
          ∫ t in x_intersect l0 l1..(1:ℝ), (y1_slope l1 * t + y1_intercept l1) := by
  refine ⟨?_, by unfold integral_y0 integral_y1; ring, ?_⟩
  · unfold calculate_and_plot_free_energy freeEnergyResult
    rw [if_neg hs, if_neg (not_not_intro hdom)]
  · rw [integral_linear, integral_linear]
    unfold integral_y0 integral_y1
    ring

/-- Witness for C5 at the in-domain input `lambda0 = [1,0,0,1/2]`,
`lambda1 = [2,0,1,0]`. -/
theorem integral_in_domain_value_witness :
    (y1_slope ⟨2, 0, 1, 0⟩ - y0_slope ⟨1, 0, 0, 1/2⟩ ≠ 0) ∧
      (0 ≤ x_intersect ⟨1, 0, 0, 1/2⟩ ⟨2, 0, 1, 0⟩ ∧
        x_intersect ⟨1, 0, 0, 1/2⟩ ⟨2, 0, 1, 0⟩ ≤ 1) ∧
      calculate_and_plot_free_energy ⟨1, 0, 0, 1/2⟩ ⟨2, 0, 1, 0⟩ =
        Except.ok
          (integral_y0 ⟨1, 0, 0, 1/2⟩ ⟨2, 0, 1, 0⟩ +
              integral_y1 ⟨1, 0, 0, 1/2⟩ ⟨2, 0, 1, 0⟩,
            integral_err_in_domain ⟨1, 0, 0, 1/2⟩ ⟨2, 0, 1, 0⟩) :=
  ⟨by norm_num [y1_slope, y0_slope],
    by rw [x_intersect_sample]; norm_num,
    (integral_in_domain_value _ _ (by norm_num [y1_slope, y0_slope])
        (by rw [x_intersect_sample]; norm_num)).1⟩

/-- C4 (amended): the in-domain integral uncertainty the function returns is
nonnegative, and its square is the source's literal expression
`e1_err^2 + slope1_err^2/4 + x_err^2*(intercept0 - mean_energy1 + slope1)^2 +
x^2*(intercept0_err^2 + e1_err^2 + slope1_err^2) +
x^2*x_err^2*(slope0 - slope1)^2 + x^4/4*(slope0_err^2 + slope1_err^2)`,
which is not the delta-method propagation of the integral formula. -/
theorem integral_err_in_domain_closed_form (l0 l1 : Sample)
    (hs : y1_slope l1 - y0_slope l0 ≠ 0)
    (hdom : 0 ≤ x_intersect l0 l1 ∧ x_intersect l0 l1 ≤ 1) :
    calculate_and_plot_free_energy l0 l1 =
        Except.ok
          (integral_y0 l0 l1 + integral_y1 l0 l1, integral_err_in_domain l0 l1) ∧
      0 ≤ integral_err_in_domain l0 l1 ∧
      integral_err_in_domain l0 l1 ^ 2 =
        l1.e_err ^ 2 + y1_slope_err l1 ^ 2 / 4 +
          x_intersect_err l0 l1 ^ 2 *
            (y0_intercept l0 - l1.e_avg + y1_slope l1) ^ 2 +
          x_intersect l0 l1 ^ 2 *
            (y0_intercept_err l0 ^ 2 + l1.e_err ^ 2 + y1_slope_err l1 ^ 2) +
          x_intersect l0 l1 ^ 2 * x_intersect_err l0 l1 ^ 2 *
            (y0_slope l0 - y1_slope l1) ^ 2 +
          x_intersect l0 l1 ^ 4 / 4 *
            (y0_slope_err l0 ^ 2 + y1_slope_err l1 ^ 2) := by
  refine ⟨?_, Real.sqrt_nonneg _, Real.sq_sqrt (by positivity)⟩
  unfold calculate_and_plot_free_energy freeEnergyResult
  rw [if_neg hs, if_neg (not_not_intro hdom)]

/-- Witness for C4 (amended) at the in-domain input `lambda0 = [1,0,0,1/2]`,
`lambda1 = [2,0,1,0]`. -/
theorem integral_err_in_domain_closed_form_witness :
    (y1_slope ⟨2, 0, 1, 0⟩ - y0_slope ⟨1, 0, 0, 1/2⟩ ≠ 0) ∧
      (0 ≤ x_intersect ⟨1, 0, 0, 1/2⟩ ⟨2, 0, 1, 0⟩ ∧
        x_intersect ⟨1, 0, 0, 1/2⟩ ⟨2, 0, 1, 0⟩ ≤ 1) ∧
      0 ≤ integral_err_in_domain ⟨1, 0, 0, 1/2⟩ ⟨2, 0, 1, 0⟩ :=
  ⟨by norm_num [y1_slope, y0_slope],
    by rw [x_intersect_sample]; norm_num,
    (integral_err_in_domain_closed_form _ _ (by norm_num [y1_slope, y0_slope])
        (by rw [x_intersect_sample]; norm_num)).2.1⟩

/-- C4 counterexample: at the in-domain input `lambda0 = [1,0,0,1/2]`,
`lambda1 = [2,0,1,0]` the code's integral uncertainty is `sqrt(33/64)` while
the delta-method propagation of the integral expression gives `1/8`. -/
theorem integral_err_ne_delta_method :
    (0 ≤ x_intersect ⟨1, 0, 0, 1/2⟩ ⟨2, 0, 1, 0⟩ ∧
        x_intersect ⟨1, 0, 0, 1/2⟩ ⟨2, 0, 1, 0⟩ ≤ 1) ∧
      integral_err_in_domain ⟨1, 0, 0, 1/2⟩ ⟨2, 0, 1, 0⟩ ≠
        integralErrSpecDelta ⟨1, 0, 0, 1/2⟩ ⟨2, 0, 1, 0⟩ := by
  have hcode :
      integral_err_in_domain ⟨1, 0, 0, 1/2⟩ ⟨2, 0, 1, 0⟩ =
        Real.sqrt (33 / 64) := by
    rw [integral_err_in_domain, x_intersect_sample, x_intersect_err_sample]
    norm_num [y1_slope_err, y0_intercept, y1_slope, y0_slope,
      y0_intercept_err, y0_slope_err]
  have hspec :
      integralErrSpecDelta ⟨1, 0, 0, 1/2⟩ ⟨2, 0, 1, 0⟩ = 1 / 8 := by
    rw [integralErrSpecDelta, x_intersect_sample, x_intersect_err_sample,
      y1_intercept_err_sample]
    rw [show
      ((1 / 2 : ℝ)) ^ 2 *
            (y0_slope ⟨1, 0, 0, 1/2⟩ * (1 / 2) + y0_intercept ⟨1, 0, 0, 1/2⟩ -
              y1_slope ⟨2, 0, 1, 0⟩ * (1 / 2) - y1_intercept ⟨2, 0, 1, 0⟩) ^ 2 +
          ((1 / 2 : ℝ) ^ 2 / 2) ^ 2 * y0_slope_err ⟨1, 0, 0, 1/2⟩ ^ 2 +
          (1 / 2 : ℝ) ^ 2 * y0_intercept_err ⟨1, 0, 0, 1/2⟩ ^ 2 +
          ((1 - (1 / 2 : ℝ) ^ 2) / 2) ^ 2 * y1_slope_err ⟨2, 0, 1, 0⟩ ^ 2 +
          (1 - (1 / 2 : ℝ)) ^ 2 * (0 : ℝ) ^ 2 = (1 / 8 : ℝ) ^ 2 from by
        norm_num [y0_slope, y0_intercept, y1_slope, y1_intercept,
          y0_slope_err, y0_intercept_err, y1_slope_err]]
    exact Real.sqrt_sq (by norm_num)
  refine ⟨by rw [x_intersect_sample]; norm_num, ?_⟩
  rw [hcode, hspec]
  intro h
  have h2 := Real.sq_sqrt (show (0:ℝ) ≤ 33 / 64 by norm_num)
  rw [h] at h2
  norm_num at h2

/-- C9 (amended): with all four input uncertainty fields nonnegative and the
slopes distinct (so the division does not raise), weakly increasing the
uncertainty fields while holding every other field fixed keeps the
computation in the same branch and does not decrease the returned integral
uncertainty. -/
theorem integral_err_monotone (a0 b0 f0 g0 a1 b1 f1 g1 b2 g2 b3 g3 : ℝ)
    (hs : y1_slope ⟨a1, b1, f1, g1⟩ - y0_slope ⟨a0, b0, f0, g0⟩ ≠ 0)
    (hb0 : 0 ≤ b0) (hb0le : b0 ≤ b2) (hg0 : 0 ≤ g0) (hg0le : g0 ≤ g2)
    (hb1 : 0 ≤ b1) (hb1le : b1 ≤ b3) (hg1 : 0 ≤ g1) (hg1le : g1 ≤ g3) :
    calculate_and_plot_free_energy ⟨a0, b0, f0, g0⟩ ⟨a1, b1, f1, g1⟩ =
        Except.ok (freeEnergyResult ⟨a0, b0, f0, g0⟩ ⟨a1, b1, f1, g1⟩) ∧
      calculate_and_plot_free_energy ⟨a0, b2, f0, g2⟩ ⟨a1, b3, f1, g3⟩ =
        Except.ok (freeEnergyResult ⟨a0, b2, f0, g2⟩ ⟨a1, b3, f1, g3⟩) ∧
      (freeEnergyResult ⟨a0, b0, f0, g0⟩ ⟨a1, b1, f1, g1⟩).2 ≤
        (freeEnergyResult ⟨a0, b2, f0, g2⟩ ⟨a1, b3, f1, g3⟩).2 := by
  have hb2 : 0 ≤ b2 := le_trans hb0 hb0le
  have hg2 : 0 ≤ g2 := le_trans hg0 hg0le
  have hb3 : 0 ≤ b3 := le_trans hb1 hb1le
  have hg3 : 0 ≤ g3 := le_trans hg1 hg1le
  have hq0 : b0 ^ 2 ≤ b2 ^ 2 := pow_le_pow_left₀ hb0 hb0le 2
  have hq1 : b1 ^ 2 ≤ b3 ^ 2 := pow_le_pow_left₀ hb1 hb1le 2
  have hqg0 : (2 * g0) ^ 2 ≤ (2 * g2) ^ 2 :=
    pow_le_pow_left₀ (by linarith) (by linarith) 2
  have hqg1 : (2 * g1) ^ 2 ≤ (2 * g3) ^ 2 :=
    pow_le_pow_left₀ (by linarith) (by linarith) 2
  have hx : x_intersect ⟨a0, b2, f0, g2⟩ ⟨a1, b3, f1, g3⟩ =
      x_intersect ⟨a0, b0, f0, g0⟩ ⟨a1, b1, f1, g1⟩ := rfl
  have hie : y1_intercept_err ⟨a1, b1, f1, g1⟩ ≤ y1_intercept_err ⟨a1, b3, f1, g3⟩ := by
    unfold y1_intercept_err
    exact Real.sqrt_le_sqrt (by simp only; nlinarith)
  have hie0 : 0 ≤ y1_intercept_err ⟨a1, b1, f1, g1⟩ := Real.sqrt_nonneg _
  have hiesq : y1_intercept_err ⟨a1, b1, f1, g1⟩ ^ 2 ≤
      y1_intercept_err ⟨a1, b3, f1, g3⟩ ^ 2 := pow_le_pow_left₀ hie0 hie 2
  have hxe : x_intersect_err ⟨a0, b0, f0, g0⟩ ⟨a1, b1, f1, g1⟩ ≤
      x_intersect_err ⟨a0, b2, f0, g2⟩ ⟨a1, b3, f1, g3⟩ := by
    unfold x_intersect_err
    apply Real.sqrt_le_sqrt
    simp only [y0_intercept_err, y0_intercept, y1_intercept, y1_slope, y0_slope,
      y1_slope_err, y0_slope_err]
    exact add_le_add
      (div_le_div_of_nonneg_right (add_le_add hq0 hiesq) (sq_nonneg _))
      (mul_le_mul_of_nonneg_left (add_le_add hqg1 hqg0) (by positivity))
  have hxe0 : 0 ≤ x_intersect_err ⟨a0, b0, f0, g0⟩ ⟨a1, b1, f1, g1⟩ := by
    unfold x_intersect_err; exact Real.sqrt_nonneg _
  have hxesq : x_intersect_err ⟨a0, b0, f0, g0⟩ ⟨a1, b1, f1, g1⟩ ^ 2 ≤
      x_intersect_err ⟨a0, b2, f0, g2⟩ ⟨a1, b3, f1, g3⟩ ^ 2 :=
    pow_le_pow_left₀ hxe0 hxe 2
  refine ⟨?_, ?_, ?_⟩
  · unfold calculate_and_plot_free_energy
    rw [if_neg hs]
  · unfold calculate_and_plot_free_energy
    rw [if_neg (show y1_slope ⟨a1, b3, f1, g3⟩ - y0_slope ⟨a0, b2, f0, g2⟩ ≠ 0 from hs)]
  · unfold freeEnergyResult
    rw [hx]
    by_cases hdom : 0 ≤ x_intersect ⟨a0, b0, f0, g0⟩ ⟨a1, b1, f1, g1⟩ ∧
        x_intersect ⟨a0, b0, f0, g0⟩ ⟨a1, b1, f1, g1⟩ ≤ 1
    · rw [if_neg (not_not_intro hdom), if_neg (not_not_intro hdom)]
      show integral_err_in_domain ⟨a0, b0, f0, g0⟩ ⟨a1, b1, f1, g1⟩ ≤
        integral_err_in_domain ⟨a0, b2, f0, g2⟩ ⟨a1, b3, f1, g3⟩
      unfold integral_err_in_domain
      apply Real.sqrt_le_sqrt
      rw [show x_intersect ⟨a0, b2, f0, g2⟩ ⟨a1, b3, f1, g3⟩ =
        x_intersect ⟨a0, b0, f0, g0⟩ ⟨a1, b1, f1, g1⟩ from rfl]
      simp only [y0_intercept_err, y0_intercept, y1_intercept, y1_slope, y0_slope,
        y1_slope_err, y0_slope_err]
      refine add_le_add (add_le_add (add_le_add (add_le_add (add_le_add ?_ ?_) ?_) ?_) ?_) ?_
      · exact hq1
      · exact div_le_div_of_nonneg_right hqg1 (by norm_num)
      · exact mul_le_mul_of_nonneg_right hxesq (sq_nonneg _)
      · exact mul_le_mul_of_nonneg_left (by linarith) (sq_nonneg _)
      · exact mul_le_mul_of_nonneg_right
          (mul_le_mul_of_nonneg_left hxesq (sq_nonneg _)) (sq_nonneg _)
      · exact mul_le_mul_of_nonneg_left (add_le_add hqg0 hqg1) (by positivity)
    · rw [if_pos hdom, if_pos hdom]
      show integral_err_fallback ⟨a0, b0, f0, g0⟩ ⟨a1, b1, f1, g1⟩ ≤
        integral_err_fallback ⟨a0, b2, f0, g2⟩ ⟨a1, b3, f1, g3⟩
      unfold integral_err_fallback
      exact div_le_div_of_nonneg_right
        (Real.sqrt_le_sqrt (show b0 ^ 2 + b1 ^ 2 ≤ b2 ^ 2 + b3 ^ 2 by linarith))
        (by norm_num)

/-- Witness for C9 (amended): `lambda0 = [0,1,0,1]` against the increased
`[0,2,0,1]`, paired with `lambda1 = [10,0,1,0]`. -/
theorem integral_err_monotone_witness :
    (y1_slope ⟨10, 0, 1, 0⟩ - y0_slope ⟨0, 1, 0, 1⟩ ≠ 0) ∧
      (freeEnergyResult ⟨0, 1, 0, 1⟩ ⟨10, 0, 1, 0⟩).2 ≤
        (freeEnergyResult ⟨0, 2, 0, 1⟩ ⟨10, 0, 1, 0⟩).2 :=
  ⟨by norm_num [y1_slope, y0_slope],
    (integral_err_monotone 0 1 0 1 10 0 1 0 2 1 0 0
        (by norm_num [y1_slope, y0_slope]) (by norm_num) (by norm_num)
        (by norm_num) (by norm_num) (by norm_num) (by norm_num) (by norm_num)
        (by norm_num)).2.2⟩

/-- C9 counterexample: with the negative uncertainty field
`mean_energy_err0 = -1`, increasing that field to 0 strictly decreases the
returned integral uncertainty (from 1/2 to 0), so the claim fails for
general finite inputs. -/
theorem integral_err_not_monotone_negative :
    calculate_and_plot_free_energy ⟨0, -1, 0, 0⟩ ⟨10, 0, 1, 0⟩ =
        Except.ok (5, 1 / 2) ∧
      calculate_and_plot_free_energy ⟨0, 0, 0, 0⟩ ⟨10, 0, 1, 0⟩ =
        Except.ok (5, 0) ∧
      ¬ ((1 : ℝ) / 2 ≤ 0) := by
  have hs : y1_slope ⟨10, 0, 1, 0⟩ - y0_slope ⟨0, -1, 0, 0⟩ ≠ 0 := by
    norm_num [y1_slope, y0_slope]
  have hs' : y1_slope ⟨10, 0, 1, 0⟩ - y0_slope ⟨0, 0, 0, 0⟩ ≠ 0 := by
    norm_num [y1_slope, y0_slope]
  have hout : ¬ (0 ≤ x_intersect ⟨0, -1, 0, 0⟩ ⟨10, 0, 1, 0⟩ ∧
      x_intersect ⟨0, -1, 0, 0⟩ ⟨10, 0, 1, 0⟩ ≤ 1) := by
    norm_num [x_intersect, y0_intercept, y1_intercept, y1_slope, y0_slope]
  have hout' : ¬ (0 ≤ x_intersect ⟨0, 0, 0, 0⟩ ⟨10, 0, 1, 0⟩ ∧
      x_intersect ⟨0, 0, 0, 0⟩ ⟨10, 0, 1, 0⟩ ≤ 1) := by
    norm_num [x_intersect, y0_intercept, y1_intercept, y1_slope, y0_slope]
  refine ⟨?_, ?_, by norm_num⟩
  · unfold calculate_and_plot_free_energy freeEnergyResult integral_fallback
      integral_err_fallback
    rw [if_neg hs, if_pos hout]
    norm_num [Real.sqrt_one]
  · unfold calculate_and_plot_free_energy freeEnergyResult integral_fallback
      integral_err_fallback
    rw [if_neg hs', if_pos hout']
    norm_num [Real.sqrt_zero]

/-- C10: the function returns its result pair before any plotting statement
can run — executing the statement body performs the ten prints, returns
`freeEnergyResult`, and never reaches a plot command — and the result is
determined by the eight input numbers alone: runs on field-equal inputs
execute identically. -/
theorem return_precedes_plotting (l0 l1 : Sample) :
    (execStmts (functionBody l0 l1)).2 = some (freeEnergyResult l0 l1) ∧
      PyStmt.plotCommand ∉ (execStmts (functionBody l0 l1)).1 ∧
      ∀ l0' l1' : Sample,
        l0.e_avg = l0'.e_avg → l0.e_err = l0'.e_err → l0.e_fluc = l0'.e_fluc →
          l0.e_fluc_err = l0'.e_fluc_err → l1.e_avg = l1'.e_avg →
          l1.e_err = l1'.e_err → l1.e_fluc = l1'.e_fluc →
          l1.e_fluc_err = l1'.e_fluc_err →
          execStmts (functionBody l0 l1) = execStmts (functionBody l0' l1') := by
  refine ⟨rfl, ?_, ?_⟩
  · have hexec : (execStmts (functionBody l0 l1)).1 =
        List.replicate 10 PyStmt.print := rfl
    rw [hexec]
    simp [List.mem_replicate]
  · intro l0' l1' h1 h2 h3 h4 h5 h6 h7 h8
    have e0 : l0 = l0' := by
      cases l0; cases l0'; simp_all
    have e1 : l1 = l1' := by
      cases l1; cases l1'; simp_all
    rw [e0, e1]

/-- Witness for C10 at the concrete inputs `[1,2,3,4]` and `[5,6,7,8]`. -/
theorem return_precedes_plotting_witness :
    (execStmts (functionBody ⟨1, 2, 3, 4⟩ ⟨5, 6, 7, 8⟩)).2 =
        some (freeEnergyResult ⟨1, 2, 3, 4⟩ ⟨5, 6, 7, 8⟩) ∧
      PyStmt.plotCommand ∉ (execStmts (functionBody ⟨1, 2, 3, 4⟩ ⟨5, 6, 7, 8⟩)).1 ∧
      execStmts (functionBody ⟨1, 2, 3, 4⟩ ⟨5, 6, 7, 8⟩) =
        execStmts (functionBody ⟨1, 2, 3, 4⟩ ⟨5, 6, 7, 8⟩) := by
  have h := return_precedes_plotting ⟨1, 2, 3, 4⟩ ⟨5, 6, 7, 8⟩
  exact ⟨h.1, h.2.1,
    h.2.2 ⟨1, 2, 3, 4⟩ ⟨5, 6, 7, 8⟩ rfl rfl rfl rfl rfl rfl rfl rfl⟩

/-- Binding a successful `Except` computation just applies the
continuation. -/
theorem bind_ok_eq {α β : Type} (x : α) (f : α → Except PyError β) :
    (Except.ok x : Except PyError α) >>= f = f x := rfl

/-- Binding a raised exception propagates the exception. -/
theorem bind_error_eq {α β : Type} (e : PyError) (f : α → Except PyError β) :
    (Except.error e : Except PyError α) >>= f = Except.error e := rfl

/-- Python division by a float that is not a zero yields the IEEE value. -/
theorem ediv_of_ne (a b : EFloat) (h : b ≠ EFloat.finite 0) :
    ediv a b = Except.ok (edivSafe a b) := by
  unfold ediv
  rw [if_neg h]

/-- Python division by a zero float raises `ZeroDivisionError`. -/
theorem ediv_zero (a : EFloat) :
    ediv a (EFloat.finite 0) = Except.error PyError.zeroDivisionError := by
  unfold ediv
  rw [if_pos rfl]

/-- Adding anything to a non-finite float stays non-finite. -/
theorem eadd_not_finite_left (a b : EFloat) (h : a.isFinite = false) :
    (eadd a b).isFinite = false := by
  cases a <;> cases b <;> simp_all [eadd, EFloat.isFinite]

/-- Adding a non-finite float to anything stays non-finite. -/
theorem eadd_not_finite_right (a b : EFloat) (h : b.isFinite = false) :
    (eadd a b).isFinite = false := by
  cases a <;> cases b <;> simp_all [eadd, EFloat.isFinite]

/-- Negation preserves non-finiteness. -/
theorem eneg_not_finite (a : EFloat) (h : a.isFinite = false) :
    (eneg a).isFinite = false := by
  cases a <;> simp_all [eneg, EFloat.isFinite]

/-- Subtracting from a non-finite float stays non-finite. -/
theorem esub_not_finite_left (a b : EFloat) (h : a.isFinite = false) :
    (esub a b).isFinite = false :=
  eadd_not_finite_left _ _ h

/-- Subtracting a non-finite float stays non-finite. -/
theorem esub_not_finite_right (a b : EFloat) (h : b.isFinite = false) :
    (esub a b).isFinite = false :=
  eadd_not_finite_right _ _ (eneg_not_finite _ h)

/-- Dividing a non-finite numerator by a non-raising denominator stays
non-finite. -/
theorem edivSafe_not_finite_left (a b : EFloat) (h : a.isFinite = false) :
    (edivSafe a b).isFinite = false := by
  cases a with
  | finite r => simp [EFloat.isFinite] at h
  | nan => cases b <;> rfl
  | inf =>
      cases b with
      | finite d =>
          show (if 0 < d then EFloat.inf else EFloat.neginf).isFinite = false
          split <;> rfl
      | inf => rfl
      | neginf => rfl
      | nan => rfl
  | neginf =>
      cases b with
      | finite d =>
          show (if 0 < d then EFloat.neginf else EFloat.inf).isFinite = false
          split <;> rfl
      | inf => rfl
      | neginf => rfl
      | nan => rfl

/-- A non-finite intersection abscissa fails Python's chained comparison
`0 <= x <= 1`, so the fallback branch is taken. -/
theorem not_pyLe01_of_not_finite (x : EFloat) (h : x.isFinite = false) :
    ¬ (pyLe (EFloat.finite 0) x ∧ pyLe x (EFloat.finite 1)) := by
  cases x with
  | finite r => simp [EFloat.isFinite] at h
  | inf => exact fun hc => hc.2
  | neginf => exact fun hc => hc.1
  | nan => exact fun hc => hc.1

/-- Squares of floats are sqrt-safe. -/
theorem sqrtSafe_epow2 (a : EFloat) : SqrtSafe (epow2 a) := by
  cases a with
  | finite x =>
      refine ⟨by simp [epow2, emul], ?_⟩
      intro r h
      simp only [epow2, emul, EFloat.finite.injEq] at h
      rw [← h]
      exact mul_self_nonneg x
  | inf => exact ⟨by simp [epow2, emul], by simp [epow2, emul]⟩
  | neginf => exact ⟨by simp [epow2, emul], by simp [epow2, emul]⟩
  | nan => exact ⟨by simp [epow2, emul], by simp [epow2, emul]⟩

/-- Scaling a sqrt-safe float by the positive literal 4 is sqrt-safe. -/
theorem sqrtSafe_scale4 (a : EFloat) (h : SqrtSafe a) :
    SqrtSafe (emul (EFloat.finite 4) a) := by
  obtain ⟨h1, h2⟩ := h
  cases a with
  | finite x =>
      refine ⟨by simp [emul], ?_⟩
      intro r hr
      simp only [emul, EFloat.finite.injEq] at hr
      have hx := h2 x rfl
      rw [← hr]
      linarith
  | inf =>
      have h4 : emul (EFloat.finite 4) EFloat.inf = EFloat.inf := by
        show (if (0:ℝ) < 4 then EFloat.inf
          else if (4:ℝ) < 0 then EFloat.neginf else EFloat.nan) = EFloat.inf
        rw [if_pos (by norm_num : (0:ℝ) < 4)]
      rw [h4]
      exact ⟨by simp, by simp⟩
  | neginf => exact absurd rfl h1
  | nan => exact ⟨by simp [emul], by simp [emul]⟩

/-- Sums of sqrt-safe floats are sqrt-safe. -/
theorem sqrtSafe_eadd (a b : EFloat) (ha : SqrtSafe a) (hb : SqrtSafe b) :
    SqrtSafe (eadd a b) := by
  obtain ⟨ha1, ha2⟩ := ha
  obtain ⟨hb1, hb2⟩ := hb
  cases a with
  | neginf => exact absurd rfl ha1
  | nan => exact ⟨by cases b <;> simp [eadd], by cases b <;> simp [eadd]⟩
  | inf =>
      cases b with
      | neginf => exact absurd rfl hb1
      | nan => exact ⟨by simp [eadd], by simp [eadd]⟩
      | inf => exact ⟨by simp [eadd], by simp [eadd]⟩
      | finite y => exact ⟨by simp [eadd], by simp [eadd]⟩
  | finite x =>
      cases b with
      | neginf => exact absurd rfl hb1
      | nan => exact ⟨by simp [eadd], by simp [eadd]⟩
      | inf => exact ⟨by simp [eadd], by simp [eadd]⟩
      | finite y =>
          refine ⟨by simp [eadd], ?_⟩
          intro r h
          simp only [eadd, EFloat.finite.injEq] at h
          rw [← h]
          exact add_nonneg (ha2 x rfl) (hb2 y rfl)

/-- `math.sqrt` does not raise on a sqrt-safe argument. -/
theorem esqrt_ok_of_sqrtSafe (a : EFloat) (h : SqrtSafe a) :
    ∃ v, esqrt a = Except.ok v := by
  obtain ⟨h1, h2⟩ := h
  cases a with
  | finite r =>
      refine ⟨EFloat.finite (Real.sqrt r), ?_⟩
      rw [esqrt, if_neg (not_lt.mpr (h2 r rfl))]
  | inf => exact ⟨EFloat.inf, rfl⟩
  | neginf => exact absurd rfl h1
  | nan => exact ⟨EFloat.nan, rfl⟩

/-- C2 (amended): if either mean-energy field is NaN or infinite and the
slope difference is not the zero float (equal slopes raise
`ZeroDivisionError` instead), the call raises no exception and the returned
integral value is non-finite, so the caller can detect the malformed input;
non-finiteness in other fields (a fluctuation-term uncertainty, say) can
produce an entirely finite output. -/
theorem calcFloat_nonfinite_mean_detectable (l0 l1 : ESample)
    (havg : l0.e_avg.isFinite = false ∨ l1.e_avg.isFinite = false)
    (hden : esub (emul (EFloat.finite 2) l1.e_fluc)
        (emul (EFloat.finite 2) l0.e_fluc) ≠ EFloat.finite 0) :
    ∃ p : EFloat × EFloat,
      calcFloat l0 l1 = Except.ok p ∧ p.1.isFinite = false := by
  obtain ⟨v, hv⟩ := esqrt_ok_of_sqrtSafe _
    (sqrtSafe_eadd _ _ (sqrtSafe_epow2 l1.e_err)
      (sqrtSafe_scale4 _ (sqrtSafe_epow2 l1.e_fluc_err)))
  have hnum : (esub l0.e_avg
      (esub l1.e_avg (emul (EFloat.finite 2) l1.e_fluc))).isFinite = false := by
    rcases havg with h | h
    · exact esub_not_finite_left _ _ h
    · exact esub_not_finite_right _ _ (esub_not_finite_left _ _ h)
  have hx : (edivSafe
      (esub l0.e_avg (esub l1.e_avg (emul (EFloat.finite 2) l1.e_fluc)))
      (esub (emul (EFloat.finite 2) l1.e_fluc)
        (emul (EFloat.finite 2) l0.e_fluc))).isFinite = false :=
    edivSafe_not_finite_left _ _ hnum
  obtain ⟨w, hw⟩ := esqrt_ok_of_sqrtSafe _
    (sqrtSafe_eadd _ _ (sqrtSafe_epow2 l0.e_err) (sqrtSafe_epow2 l1.e_err))
  have h2ne : (EFloat.finite 2 : EFloat) ≠ EFloat.finite 0 := by
    intro hc
    rw [EFloat.finite.injEq] at hc
    norm_num at hc
  have hint : (edivSafe (eadd l0.e_avg l1.e_avg)
      (EFloat.finite 2)).isFinite = false := by
    rcases havg with h | h
    · exact edivSafe_not_finite_left _ _ (eadd_not_finite_left _ _ h)
    · exact edivSafe_not_finite_left _ _ (eadd_not_finite_right _ _ h)
  refine ⟨(edivSafe (eadd l0.e_avg l1.e_avg) (EFloat.finite 2),
    edivSafe w (EFloat.finite 2)), ?_, hint⟩
  simp only [calcFloat]
  rw [hv, bind_ok_eq, ediv_of_ne _ _ hden, bind_ok_eq,
    if_pos (not_pyLe01_of_not_finite _ hx), ediv_of_ne _ _ h2ne, bind_ok_eq,
    hw, bind_ok_eq, ediv_of_ne _ _ h2ne, bind_ok_eq]
  rfl

/-- Witness for C2 (amended): `lambda0 = [nan, 0, 1, 0]`,
`lambda1 = [0, 0, 2, 0]` (distinct slopes 2 and 4, NaN mean energy). -/
theorem calcFloat_nonfinite_mean_witness :
    ((EFloat.nan).isFinite = false ∨ (EFloat.finite 0).isFinite = false) ∧
      esub (emul (EFloat.finite 2) (EFloat.finite 2))
          (emul (EFloat.finite 2) (EFloat.finite 1)) ≠ EFloat.finite 0 ∧
      ∃ p : EFloat × EFloat,
        calcFloat ⟨EFloat.nan, EFloat.finite 0, EFloat.finite 1, EFloat.finite 0⟩
            ⟨EFloat.finite 0, EFloat.finite 0, EFloat.finite 2, EFloat.finite 0⟩ =
          Except.ok p ∧ p.1.isFinite = false := by
  have hden : esub (emul (EFloat.finite 2) (EFloat.finite 2))
      (emul (EFloat.finite 2) (EFloat.finite 1)) ≠ EFloat.finite 0 := by
    have hval : esub (emul (EFloat.finite 2) (EFloat.finite 2))
        (emul (EFloat.finite 2) (EFloat.finite 1)) =
        EFloat.finite (2 * 2 + -(2 * 1)) := rfl
    rw [hval]
    intro hc
    rw [EFloat.finite.injEq] at hc
    norm_num at hc
  exact ⟨Or.inl rfl, hden,
    calcFloat_nonfinite_mean_detectable
      ⟨EFloat.nan, EFloat.finite 0, EFloat.finite 1, EFloat.finite 0⟩
      ⟨EFloat.finite 0, EFloat.finite 0, EFloat.finite 2, EFloat.finite 0⟩
      (Or.inl rfl) hden⟩

/-- C2 counterexample: with the non-finite input field
`fluctuation_term_err0 = inf` (input `lambda0 = [10, 3/10, 1, inf]`,
`lambda1 = [0, 4/10, 2, 0]`, out-of-domain intersection at 7) the function
raises nothing and returns a pair whose components are BOTH finite, so the
caller cannot detect the malformed input from the output; and with
`mean_energy0 = nan` on equal slopes (`lambda0 = [nan,0,1,0]`,
`lambda1 = [0,0,1,0]`) the function raises `ZeroDivisionError` instead of
returning a value. -/
theorem calcFloat_finite_output_on_nonfinite_input :
    Except.map (fun p : EFloat × EFloat => (p.1.isFinite, p.2.isFinite))
        (calcFloat ⟨EFloat.finite 10, EFloat.finite (3/10), EFloat.finite 1, EFloat.inf⟩
          ⟨EFloat.finite 0, EFloat.finite (4/10), EFloat.finite 2, EFloat.finite 0⟩) =
      Except.ok (true, true) ∧
    EFloat.inf.isFinite = false ∧
    calcFloat ⟨EFloat.nan, EFloat.finite 0, EFloat.finite 1, EFloat.finite 0⟩
        ⟨EFloat.finite 0, EFloat.finite 0, EFloat.finite 1, EFloat.finite 0⟩ =
      Except.error PyError.zeroDivisionError := by
  have h2ne : (EFloat.finite 2 : EFloat) ≠ EFloat.finite 0 := by
    intro hc
    rw [EFloat.finite.injEq] at hc
    norm_num at hc
  refine ⟨?_, rfl, ?_⟩
  · have h1 : esqrt (eadd (epow2 (EFloat.finite (4/10)))
        (emul (EFloat.finite 4) (epow2 (EFloat.finite 0)))) =
        Except.ok (EFloat.finite (Real.sqrt (4/10 * (4/10) + 4 * (0 * 0)))) := by
      show esqrt (EFloat.finite (4/10 * (4/10) + 4 * (0 * 0))) = _
      rw [esqrt, if_neg (by norm_num : ¬ ((4:ℝ)/10 * (4/10) + 4 * (0 * 0)) < 0)]
    have hden : esub (emul (EFloat.finite 2) (EFloat.finite 2))
        (emul (EFloat.finite 2) (EFloat.finite 1)) ≠ EFloat.finite 0 := by
      have hval : esub (emul (EFloat.finite 2) (EFloat.finite 2))
          (emul (EFloat.finite 2) (EFloat.finite 1)) =
          EFloat.finite (2 * 2 + -(2 * 1)) := rfl
      rw [hval]
      intro hc
      rw [EFloat.finite.injEq] at hc
      norm_num at hc
    have hx : edivSafe
        (esub (EFloat.finite 10)
          (esub (EFloat.finite 0) (emul (EFloat.finite 2) (EFloat.finite 2))))
        (esub (emul (EFloat.finite 2) (EFloat.finite 2))
          (emul (EFloat.finite 2) (EFloat.finite 1))) = EFloat.finite 7 := by
      show EFloat.finite ((10 + -(0 + -(2 * 2))) / (2 * 2 + -(2 * 1))) =
        EFloat.finite 7
      norm_num
    have hc7 : ¬ (pyLe (EFloat.finite 0) (EFloat.finite 7) ∧
        pyLe (EFloat.finite 7) (EFloat.finite 1)) := by
      intro hc
      have h2 : (7:ℝ) ≤ 1 := hc.2
      norm_num at h2
    have h2s : esqrt (eadd (epow2 (EFloat.finite (3/10)))
        (epow2 (EFloat.finite (4/10)))) =
        Except.ok (EFloat.finite (Real.sqrt (3/10 * (3/10) + 4/10 * (4/10)))) := by
      show esqrt (EFloat.finite (3/10 * (3/10) + 4/10 * (4/10))) = _
      rw [esqrt, if_neg (by norm_num : ¬ ((3:ℝ)/10 * (3/10) + 4/10 * (4/10)) < 0)]
    simp only [calcFloat]
    rw [h1, bind_ok_eq, ediv_of_ne _ _ hden, bind_ok_eq, hx, if_pos hc7,
      ediv_of_ne _ _ h2ne, bind_ok_eq, h2s, bind_ok_eq,
      ediv_of_ne _ _ h2ne, bind_ok_eq]
    rfl
  · have h1 : esqrt (eadd (epow2 (EFloat.finite 0))
        (emul (EFloat.finite 4) (epow2 (EFloat.finite 0)))) =
        Except.ok (EFloat.finite (Real.sqrt (0 * 0 + 4 * (0 * 0)))) := by
      show esqrt (EFloat.finite (0 * 0 + 4 * (0 * 0))) = _
      rw [esqrt, if_neg (by norm_num : ¬ ((0:ℝ) * 0 + 4 * (0 * 0)) < 0)]
    have hden0 : esub (emul (EFloat.finite 2) (EFloat.finite 1))
        (emul (EFloat.finite 2) (EFloat.finite 1)) = EFloat.finite 0 := by
      show EFloat.finite (2 * 1 + -(2 * 1)) = EFloat.finite 0
      norm_num
    simp only [calcFloat]
    rw [h1, bind_ok_eq, hden0, ediv_zero, bind_error_eq]
